import Mathlib

/-!
Verification of `backend/app/nodes/llm/_utils.py` (pyspur).

The Python module is shallowly embedded: pure functions become Lean
functions, Python dicts with known keys become structures or association
lists, Python floats that are only compared against simple decimal bounds
become rationals, and fallible code returns `Except`/`Option`.  Behavior of
third-party libraries (tenacity, docx2python, Python's `json`) that the
module relies on is modelled explicitly from those libraries' documented
semantics; each such model carries a doc comment saying what it models.
-/

namespace PySpur

/-- The `LLMProvider` enum from the source (`class LLMProvider(str, Enum)`). -/
inductive LLMProvider where
  | openai
  | anthropic
  | gemini
  | ollama
  | azure_openai
  | deepseek
deriving DecidableEq, Repr

/-- The string value of each `LLMProvider` member, as declared in the source. -/
def providerValue : LLMProvider → String
  | .openai => "openai"
  | .anthropic => "anthropic"
  | .gemini => "gemini"
  | .ollama => "ollama"
  | .azure_openai => "azure"
  | .deepseek => "deepseek"

/-- `class ModelConstraints(BaseModel)` from the source, with its field
defaults (`min_temperature = 0.0`, `max_temperature = 1.0`,
`supports_JSON_output = True`).  Python floats compared only against
decimal literals are embedded as rationals. -/
structure ModelConstraints where
  max_tokens : Nat
  min_temperature : ℚ := 0
  max_temperature : ℚ := 1
  supports_JSON_output : Bool := true
deriving DecidableEq, Repr

/-- `class LLMModel(BaseModel)` from the source. -/
structure LLMModel where
  id : String
  provider : LLMProvider
  name : String
  constraints : ModelConstraints
deriving DecidableEq, Repr

/-- The values of the 35 members of the `LLMModels(str, Enum)` enum, in
declaration order. -/
def llmModelValues : List String :=
  [ "openai/gpt-4o-mini"
  , "openai/gpt-4o"
  , "openai/o1-preview"
  , "openai/o1-mini"
  , "openai/o1"
  , "openai/o1-2024-12-17"
  , "openai/o1-mini-2024-09-12"
  , "openai/o1-preview-2024-09-12"
  , "openai/gpt-4-turbo"
  , "openai/chatgpt-4o-latest"
  , "azure/gpt-4"
  , "azure/gpt-4-turbo"
  , "azure/gpt-35-turbo"
  , "anthropic/claude-3-5-sonnet-latest"
  , "anthropic/claude-3-5-haiku-latest"
  , "anthropic/claude-3-opus-latest"
  , "gemini/gemini-2.0-flash-exp"
  , "gemini/gemini-1.5-pro"
  , "gemini/gemini-1.5-flash"
  , "gemini/gemini-1.5-pro-latest"
  , "gemini/gemini-1.5-flash-latest"
  , "deepseek/deepseek-chat"
  , "deepseek/deepseek-reasoner"
  , "ollama/phi4"
  , "ollama/llama3.3:70b"
  , "ollama/llama3.3:8b"
  , "ollama/llama3.2:8b"
  , "ollama/llama3.2:1b"
  , "ollama/llama3"
  , "ollama/gemma2"
  , "ollama/gemma2:2b"
  , "ollama/mistral"
  , "ollama/codellama"
  , "ollama/mixtral-8x7b-instruct-v0.1"
  , "ollama/deepseek-r1"
  ]

/-- The `model_registry` dictionary built inside `LLMModels.get_model_info`,
entry for entry in source order.  (Note: the registry has 34 entries; the
enum member `GEMINI_2_0_FLASH_EXP = "gemini/gemini-2.0-flash-exp"` has no
registry entry.) -/
def modelRegistry : List (String × LLMModel) :=
  [ ("openai/gpt-4o-mini",
      { id := "openai/gpt-4o-mini", provider := .openai, name := "GPT-4O Mini"
      , constraints := { max_tokens := 16384, max_temperature := 2 } })
  , ("openai/gpt-4o",
      { id := "openai/gpt-4o", provider := .openai, name := "GPT-4O"
      , constraints := { max_tokens := 16384, max_temperature := 2 } })
  , ("openai/o1-preview",
      { id := "openai/o1-preview", provider := .openai, name := "O1 Preview"
      , constraints := { max_tokens := 32768, max_temperature := 2 } })
  , ("openai/o1-mini",
      { id := "openai/o1-mini", provider := .openai, name := "O1 Mini"
      , constraints := { max_tokens := 65536, max_temperature := 2 } })
  , ("openai/o1",
      { id := "openai/o1", provider := .openai, name := "O1"
      , constraints := { max_tokens := 100000, max_temperature := 2 } })
  , ("openai/o1-2024-12-17",
      { id := "openai/o1-2024-12-17", provider := .openai, name := "O1 (2024-12-17)"
      , constraints := { max_tokens := 100000, max_temperature := 2 } })
  , ("openai/o1-mini-2024-09-12",
      { id := "openai/o1-mini-2024-09-12", provider := .openai, name := "O1 Mini (2024-09-12)"
      , constraints := { max_tokens := 65536, max_temperature := 2 } })
  , ("openai/o1-preview-2024-09-12",
      { id := "openai/o1-preview-2024-09-12", provider := .openai
      , name := "O1 Preview (2024-09-12)"
      , constraints := { max_tokens := 32768, max_temperature := 2 } })
  , ("openai/gpt-4-turbo",
      { id := "openai/gpt-4-turbo", provider := .openai, name := "GPT-4 Turbo"
      , constraints := { max_tokens := 4096, max_temperature := 2 } })
  , ("openai/chatgpt-4o-latest",
      { id := "openai/chatgpt-4o-latest", provider := .openai
      , name := "ChatGPT-4 Optimized Latest"
      , constraints := { max_tokens := 4096, max_temperature := 2 } })
  , ("azure/gpt-4",
      { id := "azure/gpt-4", provider := .azure_openai, name := "Azure GPT-4"
      , constraints := { max_tokens := 4096, max_temperature := 2 } })
  , ("azure/gpt-4-turbo",
      { id := "azure/gpt-4-turbo", provider := .azure_openai, name := "Azure GPT-4 Turbo"
      , constraints := { max_tokens := 4096, max_temperature := 2 } })
  , ("azure/gpt-35-turbo",
      { id := "azure/gpt-35-turbo", provider := .azure_openai, name := "Azure GPT-3.5 Turbo"
      , constraints := { max_tokens := 4096, max_temperature := 2 } })
  , ("anthropic/claude-3-5-sonnet-latest",
      { id := "anthropic/claude-3-5-sonnet-latest", provider := .anthropic
      , name := "Claude 3.5 Sonnet Latest"
      , constraints := { max_tokens := 8192, max_temperature := 1
                       , supports_JSON_output := false } })
  , ("anthropic/claude-3-5-haiku-latest",
      { id := "anthropic/claude-3-5-haiku-latest", provider := .anthropic
      , name := "Claude 3.5 Haiku Latest"
      , constraints := { max_tokens := 8192, max_temperature := 1
                       , supports_JSON_output := false } })
  , ("anthropic/claude-3-opus-latest",
      { id := "anthropic/claude-3-opus-latest", provider := .anthropic
      , name := "Claude 3 Opus Latest"
      , constraints := { max_tokens := 4096, max_temperature := 1
                       , supports_JSON_output := false } })
  , ("gemini/gemini-1.5-pro",
      { id := "gemini/gemini-1.5-pro", provider := .gemini, name := "Gemini 1.5 Pro"
      , constraints := { max_tokens := 8192, max_temperature := 1 } })
  , ("gemini/gemini-1.5-flash",
      { id := "gemini/gemini-1.5-flash", provider := .gemini, name := "Gemini 1.5 Flash"
      , constraints := { max_tokens := 8192, max_temperature := 1 } })
  , ("gemini/gemini-1.5-pro-latest",
      { id := "gemini/gemini-1.5-pro-latest", provider := .gemini
      , name := "Gemini 1.5 Pro Latest"
      , constraints := { max_tokens := 8192, max_temperature := 1 } })
  , ("gemini/gemini-1.5-flash-latest",
      { id := "gemini/gemini-1.5-flash-latest", provider := .gemini
      , name := "Gemini 1.5 Flash Latest"
      , constraints := { max_tokens := 8192, max_temperature := 1 } })
  , ("deepseek/deepseek-chat",
      { id := "deepseek/deepseek-chat", provider := .deepseek, name := "Deepseek Chat"
      , constraints := { max_tokens := 8192, max_temperature := 2
                       , supports_JSON_output := false } })
  , ("deepseek/deepseek-reasoner",
      { id := "deepseek/deepseek-reasoner", provider := .deepseek, name := "Deepseek Reasoner"
      , constraints := { max_tokens := 8192, max_temperature := 2
                       , supports_JSON_output := false } })
  , ("ollama/phi4",
      { id := "ollama/phi4", provider := .ollama, name := "Phi 4"
      , constraints := { max_tokens := 4096, max_temperature := 2 } })
  , ("ollama/llama3.3:70b",
      { id := "ollama/llama3.3:70b", provider := .ollama, name := "Llama 3.3 (70B)"
      , constraints := { max_tokens := 4096, max_temperature := 2 } })
  , ("ollama/llama3.3:8b",
      { id := "ollama/llama3.3:8b", provider := .ollama, name := "Llama 3.3 (8B)"
      , constraints := { max_tokens := 4096, max_temperature := 2 } })
  , ("ollama/llama3.2:8b",
      { id := "ollama/llama3.2:8b", provider := .ollama, name := "Llama 3.2 (8B)"
      , constraints := { max_tokens := 4096, max_temperature := 2 } })
  , ("ollama/llama3.2:1b",
      { id := "ollama/llama3.2:1b", provider := .ollama, name := "Llama 3.2 (1B)"
      , constraints := { max_tokens := 4096, max_temperature := 2 } })
  , ("ollama/llama3",
      { id := "ollama/llama3", provider := .ollama, name := "Llama 3 (8B)"
      , constraints := { max_tokens := 4096, max_temperature := 2 } })
  , ("ollama/gemma2",
      { id := "ollama/gemma2", provider := .ollama, name := "Gemma 2"
      , constraints := { max_tokens := 4096, max_temperature := 2 } })
  , ("ollama/gemma2:2b",
      { id := "ollama/gemma2:2b", provider := .ollama, name := "Gemma 2 (2B)"
      , constraints := { max_tokens := 4096, max_temperature := 2 } })
  , ("ollama/mistral",
      { id := "ollama/mistral", provider := .ollama, name := "Mistral"
      , constraints := { max_tokens := 4096, max_temperature := 2 } })
  , ("ollama/codellama",
      { id := "ollama/codellama", provider := .ollama, name := "CodeLlama"
      , constraints := { max_tokens := 4096, max_temperature := 2 } })
  , ("ollama/mixtral-8x7b-instruct-v0.1",
      { id := "ollama/mixtral-8x7b-instruct-v0.1", provider := .ollama
      , name := "Mixtral 8x7B Instruct"
      , constraints := { max_tokens := 4096, max_temperature := 2 } })
  , ("ollama/deepseek-r1",
      { id := "ollama/deepseek-r1", provider := .ollama, name := "Deepseek R1"
      , constraints := { max_tokens := 4096, max_temperature := 2 } })
  ]

/-- `LLMModels.get_model_info`: `model_registry.get(model_id)`, i.e. a lookup
in the registry dictionary, returning `None` when the key is absent. -/
def get_model_info (model_id : String) : Option LLMModel :=
  (modelRegistry.find? (fun p => p.1 == model_id)).map (fun p => p.2)

/-- The part of a model id before the first `/` (what the claim calls the
provider prefix of the id). -/
def prefixBeforeSlash (s : String) : String :=
  String.mk (s.data.takeWhile (fun c => c ≠ '/'))

/-- Python truthiness of an environment-variable read: `os.getenv` yields
`None` when the variable is unset, and `None` and the empty string are both
falsy. -/
def envTruthy : Option String → Bool
  | none => false
  | some s => !s.isEmpty

/-- Python truthiness of an `Optional[List[...]]` argument: `None` and the
empty list are both falsy. -/
def pyListTruthy : Option (List α) → Bool
  | none => false
  | some l => !l.isEmpty

/-- Result of the provider-selection branch of `completion_with_backoff`:
either the Azure configuration path (`setup_azure_configuration` followed by
`acompletion`) or a direct `acompletion` call carrying the kwargs.  The
kwargs are abstract (`κ`), with the accessor for `kwargs.get("model")`
passed in. -/
inductive CompletionCall (κ : Type) where
  | azureConfigPath
  | acompletionCall (kwargs : κ)
deriving DecidableEq, Repr

/-- Provider selection at the top of `completion_with_backoff`:
`model = kwargs.get("model", "")`, then Azure is used when
`model.startswith("azure/") or (os.getenv("AZURE_OPENAI_API_KEY") and not
model.startswith("ollama/"))`; in both remaining branches (the `ollama/`
prefix branch and the standard branch) the source calls
`acompletion(**kwargs)` with the kwargs unchanged. -/
def completionDispatch (getModel : κ → Option String)
    (azure_api_key : Option String) (kwargs : κ) : CompletionCall κ :=
  let model := (getModel kwargs).getD ""
  if model.startsWith "azure/" ||
      (envTruthy azure_api_key && !model.startsWith "ollama/") then
    CompletionCall.azureConfigPath
  else
    CompletionCall.acompletionCall kwargs

/-- Source `class ModelInfo(BaseModel)`: its four fields.  `model` is kept as
the enum member's string value; floats compared only against decimal bounds
are embedded as rationals. -/
structure ModelInfo where
  model : String
  max_tokens : Option Int
  temperature : Option ℚ
  top_p : Option ℚ
deriving DecidableEq, Repr

/-- Pydantic validation errors that `ModelInfo` construction can raise. -/
inductive ValidationError where
  | invalidModel
  | missingMaxTokens
  | maxTokensOutOfRange
  | temperatureOutOfRange
  | topPOutOfRange
deriving DecidableEq, Repr

/-- Pydantic `ge`/`le` check on a provided `Optional[int]` value: an explicit
`None` passes (numeric constraints are not applied to `None`). -/
def intBoundOk (lo hi : Int) : Option Int → Bool
  | none => true
  | some v => decide (lo ≤ v ∧ v ≤ hi)

/-- Pydantic `ge`/`le` check on a provided `Optional[float]` value. -/
def ratBoundOk (lo hi : ℚ) : Option ℚ → Bool
  | none => true
  | some v => decide (lo ≤ v ∧ v ≤ hi)

/-- Pydantic construction of `ModelInfo`.  Each argument is `none` when the
field is omitted and `some v` when the field is passed with value `v` (the
fields have `Optional` types, so `v` is itself an `Option`).  Omitted fields
take the declared defaults (`model = LLMModels.GPT_4O`, `temperature = 0.7`,
`top_p = 1.0`); `max_tokens` is declared required (`Field(...)`), so
omitting it is an error; provided values are validated against the declared
bounds (`max_tokens` in `[1, 65536]`, `temperature` and `top_p` in
`[0.0, 1.0]`), with the checks skipped for an explicit `None`. -/
def ModelInfo.construct (model : Option String) (max_tokens : Option (Option Int))
    (temperature : Option (Option ℚ)) (top_p : Option (Option ℚ)) :
    Except ValidationError ModelInfo :=
  let modelVal := model.getD "openai/gpt-4o"
  if ¬ (modelVal ∈ llmModelValues) then Except.error ValidationError.invalidModel
  else
    match max_tokens with
    | none => Except.error ValidationError.missingMaxTokens
    | some mt =>
      if ¬ intBoundOk 1 65536 mt then Except.error ValidationError.maxTokensOutOfRange
      else
        let t := temperature.getD (some (7/10))
        if ¬ ratBoundOk 0 1 t then Except.error ValidationError.temperatureOutOfRange
        else
          let tp := top_p.getD (some 1)
          if ¬ ratBoundOk 0 1 tp then Except.error ValidationError.topPOutOfRange
          else Except.ok (ModelInfo.mk modelVal mt t tp)

/-- Chat message dictionaries (`\x7b"role": ..., "content": ...\x7d`) as the
source builds and inspects them. -/
structure ChatMessage where
  role : String
  content : String
deriving DecidableEq, Repr

/-- Few-shot example dictionaries, read through their `"input"` and
`"output"` keys by `create_messages`. -/
structure FewShotExample where
  input : String
  output : String
deriving DecidableEq, Repr

/-- Source `create_messages`: system message first, then a user/assistant
pair per few-shot example, then the history entries, then the user message.
The `if few_shot_examples:`/`if history:` truthiness tests (falsy for `None`
and for the empty list) are mirrored exactly. -/
def create_messages (system_message user_message : String)
    (few_shot_examples : Option (List FewShotExample))
    (history : Option (List ChatMessage)) : List ChatMessage :=
  let messages := [ChatMessage.mk "system" system_message]
  let messages :=
    if pyListTruthy few_shot_examples then
      messages ++ (few_shot_examples.getD []).flatMap
        (fun e => [ChatMessage.mk "user" e.input, ChatMessage.mk "assistant" e.output])
    else messages
  let messages :=
    if pyListTruthy history then messages ++ history.getD [] else messages
  messages ++ [ChatMessage.mk "user" user_message]

/-- Exceptions that the embedded retry machinery distinguishes.  The three
named kinds are the ones listed in the source's retry predicate
(`litellm.exceptions.AuthenticationError`, `ValueError`,
`litellm.exceptions.RateLimitError`); every other exception type is
`otherExc`. -/
inductive PyExc where
  | authenticationError
  | valueError
  | rateLimitError
  | otherExc (name : String)
deriving DecidableEq, Repr

/-- Modelled from tenacity (third-party): the `RetryCallState` that tenacity
passes to a custom `retry` callback, as far as such a callback can observe
it here — the attempt number and the exception (if any) of the attempt just
finished. -/
structure RetryCallState where
  attempt_number : Nat
  exception : Option PyExc
deriving DecidableEq, Repr

/-- Evaluation of `isinstance(x, (AuthenticationError, ValueError,
RateLimitError))` when `x` is a tenacity `RetryCallState`: a
`RetryCallState` is not an exception instance, so the test is `False`
whatever the state holds. -/
def retryStateIsListedExc (_ : RetryCallState) : Bool := false

/-- The `retry` argument built in the source for `completion_with_backoff`:
`lambda e: not isinstance(e, (AuthenticationError, ValueError,
RateLimitError))`, applied to the value tenacity actually passes a custom
retry callback — the `RetryCallState` (tenacity documents that custom retry
callbacks receive the `RetryCallState`, not the raised exception). -/
def completionRetryPred (e : RetryCallState) : Bool :=
  ! retryStateIsListedExc e

/-- Modelled from tenacity (third-party): the default `retry` strategy used
when none is passed (as in `ollama_with_backoff`):
`retry_if_exception_type(Exception)` — retry exactly when the attempt
raised. -/
def defaultRetryPred (e : RetryCallState) : Bool :=
  e.exception.isSome

/-- Outcome of a retried call: the value of the first successful attempt,
or tenacity's `RetryError` once the stop condition holds after a failure,
or the original exception re-raised when the retry predicate rejects a
retry.  Each carries the number of attempts made. -/
inductive RetryOutcome (α : Type) where
  | success (value : α) (attempts : Nat)
  | retryError (lastExc : PyExc) (attempts : Nat)
  | reraised (exc : PyExc) (attempts : Nat)
deriving DecidableEq, Repr

/-- Number of attempts a retried call made. -/
def RetryOutcome.attemptsMade : RetryOutcome α → Nat
  | .success _ n => n
  | .retryError _ n => n
  | .reraised _ n => n

/-- Modelled from tenacity (third-party) and the source's `async_retry`
wrapper: attempt `k` runs the wrapped coroutine; a successful attempt
returns its value at once; on an exception tenacity first consults the
`retry` predicate on the `RetryCallState` (no retry means the attempt's
exception is re-raised), then the stop condition `stop_after_attempt`
(`attempt_number >= max_attempt_number` means a `RetryError` is raised,
`reraise` being left at its default `False`), and otherwise waits and runs
the next attempt. -/
def retryLoopGo (pred : RetryCallState → Bool) (stopAfter : Nat)
    (attempts : Nat → Except PyExc α) : Nat → Nat → RetryOutcome α
  | fuel, k =>
    match attempts k with
    | .ok v => .success v k
    | .error e =>
      if !pred (RetryCallState.mk k (some e)) then .reraised e k
      else if stopAfter ≤ k then .retryError e k
      else
        match fuel with
        | 0 => .retryError e k
        | fuel' + 1 => retryLoopGo pred stopAfter attempts fuel' (k + 1)

/-- A retried call: the loop starting at attempt 1 (fuel `stopAfter`
suffices because the stop condition fires at attempt `stopAfter`). -/
def retryCall (pred : RetryCallState → Bool) (stopAfter : Nat)
    (attempts : Nat → Except PyExc α) : RetryOutcome α :=
  retryLoopGo pred stopAfter attempts stopAfter 1

/-- Modelled from tenacity (third-party): `wait_exponential(multiplier, max,
exp_base, min)` computes `multiplier * exp_base ** attempt_number` and
clamps it as `max(max(0, min), min(result, max))`.  This value is the upper
end of the random window below. -/
def wait_exponential_high (multiplier mn mx expBase : ℚ) (attempt_number : Nat) : ℚ :=
  max (max 0 mn) (min (multiplier * expBase ^ attempt_number) mx)

/-- Modelled from tenacity (third-party): `wait_random_exponential` returns
`random.uniform(0, high)` where `high` is the `wait_exponential` value; the
random draw is modelled by a factor `u ∈ [0, 1]` scaling the window. -/
def wait_random_exponential_draw (multiplier mn mx expBase : ℚ)
    (attempt_number : Nat) (u : ℚ) : ℚ :=
  u * wait_exponential_high multiplier mn mx expBase attempt_number

/-- The wait configured on both retry decorators in the source:
`wait_random_exponential(min=30, max=120)`, with tenacity's defaults
`multiplier=1` and `exp_base=2`. -/
def backoffWait (attempt_number : Nat) (u : ℚ) : ℚ :=
  wait_random_exponential_draw 1 30 120 2 attempt_number u

/-- Modelled from docx2python (third-party): the result object as far as
`convert_docx_to_xml` reads it.  `properties` is the document-properties
dictionary (values may be `None` or empty), and `text` is — per
docx2python's documentation — the entire document content as one single
string. -/
structure DocxContent where
  properties : List (String × Option String)
  text : String
deriving DecidableEq, Repr

/-- Python truthiness of a document-property value (`if value:`). -/
def propTruthy : Option String → Bool
  | none => false
  | some s => !s.isEmpty

/-- Source `convert_docx_to_xml`, success path: the XML declaration and
`<document>` root, a `<metadata>` element per truthy property, then the
content loop `for paragraph in docx_content.text` — since `text` is a
string, this iterates its characters, and each `paragraph` is a
one-character string tested for truthiness before being wrapped in a
`<paragraph>` element.  (The `except` clause logs and re-raises, so a
docx2python failure propagates unchanged.) -/
def convert_docx_to_xml (docx_content : DocxContent) : String :=
  let xml0 := "<?xml version='1.0' encoding='UTF-8'?>\n<document>\n"
  let xmlMeta := xml0 ++ "<metadata>\n" ++
    String.join (docx_content.properties.map (fun kv =>
      if propTruthy kv.2 then
        "<" ++ kv.1 ++ ">" ++ kv.2.getD "" ++ "</" ++ kv.1 ++ ">\n"
      else "")) ++ "</metadata>\n"
  let xmlFull := xmlMeta ++ "<content>\n" ++
    String.join (docx_content.text.data.map (fun paragraph =>
      if String.mk [paragraph] ≠ "" then
        "<paragraph>" ++ String.mk [paragraph] ++ "</paragraph>\n"
      else "")) ++ "</content>\n"
  xmlFull ++ "</document>"

/-- JSON values in the data model of Python's `json` module.  Numbers keep
their source text (no claim inspects a numeric value). -/
inductive Json where
  | null
  | bool (b : Bool)
  | num (raw : String)
  | str (s : String)
  | arr (items : List Json)
  | obj (members : List (String × Json))
deriving Repr

/-- Lookup of a key in a JSON object (`d[k]` / `k in d` on dicts). -/
def Json.lookup (j : Json) (key : String) : Option Json :=
  match j with
  | .obj ms => (ms.find? (fun p => p.1 == key)).map (fun p => p.2)
  | _ => none

/-- The keys of a JSON object, in insertion order. -/
def objKeys : Json → List String
  | .obj ms => ms.map (fun p => p.1)
  | _ => []

/-- Python dict item assignment `d[k] = v` on an association list: replace
the value in place if the key exists (keeping its position), else append. -/
def setKey : List (String × Json) → String → Json → List (String × Json)
  | [], k, v => [(k, v)]
  | (k', v') :: rest, k, v =>
    if k' = k then (k, v) :: rest else (k', v') :: setKey rest k v

/-- Exceptions raised by the JSON-handling code paths of `generate_text`. -/
inductive PyErr where
  | typeError
  | stopIteration
  | jsonDecodeError
deriving DecidableEq, Repr

/-- Hexadecimal digit characters used by `json.dumps` escapes. -/
def hexDigitChar (n : Nat) : Char :=
  if n < 10 then Char.ofNat (48 + n) else Char.ofNat (87 + n)

/-- Modelled from Python's `json.dumps` (third-party, `ensure_ascii=True`):
escaping of one character inside a JSON string.  (Characters above the
Basic Multilingual Plane would be emitted as surrogate pairs by Python; no
claim exercises them.) -/
def dumpsChar (c : Char) : List Char :=
  if c = '"' then ['\\', '"']
  else if c = '\\' then ['\\', '\\']
  else if c = '\n' then ['\\', 'n']
  else if c = '\t' then ['\\', 't']
  else if c = '\r' then ['\\', 'r']
  else if c.toNat = 8 then ['\\', 'b']
  else if c.toNat = 12 then ['\\', 'f']
  else if c.toNat < 32 ∨ 128 ≤ c.toNat then
    ['\\', 'u', hexDigitChar (c.toNat / 4096 % 16), hexDigitChar (c.toNat / 256 % 16),
      hexDigitChar (c.toNat / 16 % 16), hexDigitChar (c.toNat % 16)]
  else [c]

/-- Modelled from Python's `json.dumps`: a JSON string literal. -/
def dumpsString (s : String) : String :=
  String.mk ('"' :: s.data.flatMap dumpsChar ++ ['"'])

mutual

/-- Modelled from Python's `json.dumps` with default separators
(`", "` between items, `": "` after keys). -/
def jsonDumps : Json → String
  | .null => "null"
  | .bool true => "true"
  | .bool false => "false"
  | .num raw => raw
  | .str s => dumpsString s
  | .arr items => "[" ++ jsonDumpsItems items ++ "]"
  | .obj ms => "\x7b" ++ jsonDumpsMembers ms ++ "\x7d"

/-- Serialization of array items, comma-separated. -/
def jsonDumpsItems : List Json → String
  | [] => ""
  | [x] => jsonDumps x
  | x :: y :: xs => jsonDumps x ++ ", " ++ jsonDumpsItems (y :: xs)

/-- Serialization of object members, comma-separated. -/
def jsonDumpsMembers : List (String × Json) → String
  | [] => ""
  | [(k, v)] => dumpsString k ++ ": " ++ jsonDumps v
  | (k, v) :: m :: xs => dumpsString k ++ ": " ++ jsonDumps v ++ ", " ++ jsonDumpsMembers (m :: xs)

end

/-- The left curly-brace character. -/
def lbrace : Char := '\x7b'

/-- The right curly-brace character. -/
def rbrace : Char := '\x7d' 

/-- JSON whitespace characters skipped by Python's `json.loads`. -/
def isJsonWs (c : Char) : Bool :=
  c = ' ' || c = '\t' || c = '\n' || c = '\r'

/-- Skip leading JSON whitespace. -/
def skipWs (l : List Char) : List Char :=
  l.dropWhile isJsonWs

/-- Value of a hexadecimal digit character, if it is one. -/
def hexVal (c : Char) : Option Nat :=
  if '0' ≤ c ∧ c ≤ '9' then some (c.toNat - 48)
  else if 'a' ≤ c ∧ c ≤ 'f' then some (c.toNat - 87)
  else if 'A' ≤ c ∧ c ≤ 'F' then some (c.toNat - 55)
  else none

/-- The single-character escapes accepted by Python's `json.loads` after a
backslash (besides `\uXXXX`). -/
def escChar (c : Char) : Option Char :=
  if c = '"' then some '"'
  else if c = '\\' then some '\\'
  else if c = '/' then some '/'
  else if c = 'b' then some (Char.ofNat 8)
  else if c = 'f' then some (Char.ofNat 12)
  else if c = 'n' then some '\n'
  else if c = 'r' then some '\r'
  else if c = 't' then some '\t'
  else none

/-- Modelled from Python's `json.loads` in its default strict mode: the body
of a JSON string literal after the opening quote.  Returns the decoded
characters and the input remaining after the closing quote.  Unescaped
control characters (below 0x20) are rejected; a `\uXXXX` escape decodes the
four hex digits (lone surrogates and surrogate pairs are not distinguished;
no claim exercises them). -/
def parseStrLit : List Char → Option (List Char × List Char)
  | [] => none
  | c :: cs =>
    if c = '"' then some ([], cs)
    else if c = '\\' then
      match cs with
      | [] => none
      | e :: cs2 =>
        if e = 'u' then
          match cs2 with
          | a :: b :: c3 :: d :: cs3 =>
            match hexVal a, hexVal b, hexVal c3, hexVal d with
            | some x, some y, some z, some w =>
              (parseStrLit cs3).map
                (fun p => (Char.ofNat (((x * 16 + y) * 16 + z) * 16 + w) :: p.1, p.2))
            | _, _, _, _ => none
          | _ => none
        else
          match escChar e with
          | some d => (parseStrLit cs2).map (fun p => (d :: p.1, p.2))
          | none => none
    else if c.toNat < 32 then none
    else (parseStrLit cs).map (fun p => (c :: p.1, p.2))

/-- Leading decimal digits of the input, and the rest. -/
def takeDigits : List Char → List Char × List Char
  | [] => ([], [])
  | c :: cs =>
    if c.isDigit then
      let p := takeDigits cs
      (c :: p.1, p.2)
    else ([], c :: cs)

/-- Fractional part of a JSON number (`.` followed by at least one digit),
or nothing. -/
def parseFracPart : List Char → Option (List Char × List Char)
  | l =>
    match l with
    | c :: r =>
      if c = '.' then
        match takeDigits r with
        | ([], _) => none
        | (ds, r2) => some (c :: ds, r2)
      else some ([], l)
    | [] => some ([], [])

/-- Exponent part of a JSON number (`e`/`E`, optional sign, at least one
digit), or nothing. -/
def parseExpPart : List Char → Option (List Char × List Char)
  | l =>
    match l with
    | c :: r =>
      if c = 'e' ∨ c = 'E' then
        let sr : List Char × List Char :=
          match r with
          | s :: r3 => if s = '+' ∨ s = '-' then ([s], r3) else ([], r)
          | [] => ([], r)
        match takeDigits sr.2 with
        | ([], _) => none
        | (ds, r4) => some (c :: (sr.1 ++ ds), r4)
      else some ([], l)
    | [] => some ([], [])

/-- Modelled from Python's `json.loads` number grammar
(`-?(0|[1-9][0-9]*)(\.[0-9]+)?([eE][-+]?[0-9]+)?`): the number's source
text and the remaining input. -/
def parseNumChars (l : List Char) : Option (List Char × List Char) :=
  let sl : List Char × List Char :=
    match l with
    | c :: rest => if c = '-' then ([c], rest) else ([], l)
    | [] => ([], l)
  match takeDigits sl.2 with
  | ([], _) => none
  | (d :: ds, l2) =>
    if d = '0' ∧ ds ≠ [] then none
    else
      match parseFracPart l2 with
      | none => none
      | some (f, l3) =>
        match parseExpPart l3 with
        | none => none
        | some (e, l4) => some (sl.1 ++ d :: ds ++ f ++ e, l4)

/-- A JSON literal: `true`, `false`, `null`, or a number. -/
def parseLitToken (l : List Char) : Option (Json × List Char) :=
  if l.take 4 = ['t', 'r', 'u', 'e'] then some (Json.bool true, l.drop 4)
  else if l.take 5 = ['f', 'a', 'l', 's', 'e'] then some (Json.bool false, l.drop 5)
  else if l.take 4 = ['n', 'u', 'l', 'l'] then some (Json.null, l.drop 4)
  else (parseNumChars l).map (fun p => (Json.num (String.mk p.1), p.2))

mutual

/-- Modelled from Python's `json.loads`: one JSON value, preceded by
optional whitespace.  The fuel argument only bounds nesting and member
counts; every recursive call consumes at least one input character, so fuel
`input length + 1` (as `json_loads` passes) never runs out. -/
def parseValue : Nat → List Char → Option (Json × List Char)
  | 0, _ => none
  | n + 1, l =>
    match skipWs l with
    | [] => none
    | c :: cs =>
      if c = '"' then
        (parseStrLit cs).map (fun p => (Json.str (String.mk p.1), p.2))
      else if c = lbrace then
        match skipWs cs with
        | c2 :: cs2 =>
          if c2 = rbrace then some (Json.obj [], cs2)
          else (parseMembers n (c2 :: cs2)).map (fun p => (Json.obj p.1, p.2))
        | [] => none
      else if c = '[' then
        match skipWs cs with
        | c2 :: cs2 =>
          if c2 = ']' then some (Json.arr [], cs2)
          else (parseItems n (c2 :: cs2)).map (fun p => (Json.arr p.1, p.2))
        | [] => none
      else parseLitToken (c :: cs)

/-- Members of a JSON object after the opening brace (at least one). -/
def parseMembers : Nat → List Char → Option (List (String × Json) × List Char)
  | 0, _ => none
  | n + 1, l =>
    match skipWs l with
    | c :: cs =>
      if c = '"' then
        match parseStrLit cs with
        | none => none
        | some (key, rest) =>
          match skipWs rest with
          | c2 :: cs2 =>
            if c2 = ':' then
              match parseValue n cs2 with
              | none => none
              | some (v, rest2) =>
                match skipWs rest2 with
                | c3 :: cs3 =>
                  if c3 = ',' then
                    (parseMembers n cs3).map
                      (fun p => ((String.mk key, v) :: p.1, p.2))
                  else if c3 = rbrace then some ([(String.mk key, v)], cs3)
                  else none
                | [] => none
            else none
          | [] => none
      else none
    | [] => none

/-- Items of a JSON array after the opening bracket (at least one). -/
def parseItems : Nat → List Char → Option (List Json × List Char)
  | 0, _ => none
  | n + 1, l =>
    match parseValue n l with
    | none => none
    | some (v, rest) =>
      match skipWs rest with
      | c :: cs =>
        if c = ',' then (parseItems n cs).map (fun p => (v :: p.1, p.2))
        else if c = ']' then some ([v], cs)
        else none
      | [] => none

end

/-- Modelled from Python's `json.loads`: parse a complete document,
rejecting trailing non-whitespace (Python raises `JSONDecodeError`,
a subclass of `ValueError`; failure is `none` here). -/
def json_loads (s : String) : Option Json :=
  match parseValue (s.data.length + 1) s.data with
  | some (v, rest) => if (skipWs rest).isEmpty then some v else none
  | none => none

/-- Python `str.replace` with a single-character pattern: occurrences of a
one-character pattern cannot overlap, so `str.replace` is exactly this
per-character substitution. -/
def replaceChar (s : List Char) (old : Char) (new : List Char) : List Char :=
  s.flatMap (fun c => if c = old then new else [c])

/-- The sanitization `generate_text` applies before wrapping a raw response:
`response.replace('"', '\\"').replace("\n", "\\n")`. -/
def sanitizeResponse (response : String) : String :=
  String.mk (replaceChar (replaceChar response.data '"' ['\\', '"']) '\n' ['\\', 'n'])

/-- The JSON wrapping `generate_text` returns for models that do not support
JSON output: the f-string `f'\x7b\x7b"output": "\x7bsanitized_response\x7d"\x7d\x7d'`.
(`completion_with_backoff` and `ollama_with_backoff` return message-content
strings, so `hasattr(raw_response, "choices")` is false and the
`provider_specific_fields` branch in the source is never taken.) -/
def wrapOutput (response : String) : String :=
  "\x7b\"output\": \"" ++ sanitizeResponse response ++ "\"\x7d"

/-- The type-name translation done by each recognized branch of the loop in
`convert_output_schema_to_json_schema`; `none` for an unrecognized type
name (for which the loop assigns nothing into `properties`). -/
def jsonTypeOf (field_type : String) : Option String :=
  if field_type = "str" ∨ field_type = "string" then some "string"
  else if field_type = "int" ∨ field_type = "integer" then some "integer"
  else if field_type = "float" ∨ field_type = "number" then some "number"
  else if field_type = "bool" ∨ field_type = "boolean" then some "boolean"
  else none

/-- One iteration of the loop in `convert_output_schema_to_json_schema`:
assign into the `properties` dict for a recognized type name, and append
the field to `required` unconditionally. -/
def convertLoopStep (acc : List (String × Json) × List String)
    (entry : String × String) : List (String × Json) × List String :=
  let props :=
    match jsonTypeOf entry.2 with
    | some t => setKey acc.1 entry.1 (Json.obj [("type", Json.str t)])
    | none => acc.1
  (props, acc.2 ++ [entry.1])

/-- Source `convert_output_schema_to_json_schema`: the literal skeleton dict
(`type`, `properties`, `required`, `additionalProperties`) whose
`properties` and `required` entries are filled by the loop. -/
def convert_output_schema_to_json_schema (output_schema : List (String × String)) : Json :=
  let r := output_schema.foldl convertLoopStep ([], [])
  Json.obj
    [ ("type", Json.str "object")
    , ("properties", Json.obj r.1)
    , ("required", Json.arr (r.2.map Json.str))
    , ("additionalProperties", Json.bool false)
    ]

/-- Answers of the two litellm capability lookups `generate_text` makes
(third-party lookups, taken as parameters):
`"response_format" in litellm.get_supported_openai_params(model)` and
`litellm.supports_response_schema(model)`. -/
structure LitellmCaps where
  supports_response_format : Bool
  supports_response_schema : Bool
deriving DecidableEq, Repr

/-- A simple output schema (dict of field names to type names) as a JSON
value, for `json.dumps(output_schema)`. -/
def simpleSchemaJson (output_schema : List (String × String)) : Json :=
  Json.obj (output_schema.map (fun e => (e.1, Json.str e.2)))

/-- The assignment `output_json_schema["additionalProperties"] = False`:
item assignment on a dict, a `TypeError` on any other value. -/
def setAdditionalProps (j : Json) : Except PyErr Json :=
  match j with
  | .obj ms => .ok (.obj (setKey ms "additionalProperties" (.bool false)))
  | _ => .error .typeError

/-- Python `str.strip()` emptiness: true when every character is
whitespace. -/
def stripIsEmpty (s : String) : Bool :=
  s.data.all (fun c => c.isWhitespace)

/-- The schema-derivation chain of `generate_text` (the `if`/`elif` ladder
on `output_json_schema`/`output_schema` followed by the
`additionalProperties` assignment).  Returns the resulting
`output_json_schema` dict together with the possibly re-bound
`output_schema` (the first branch assigns both). -/
def deriveSchema (output_schema : Option (List (String × String)))
    (output_json_schema : Option String) :
    Except PyErr (Json × Option (List (String × String))) :=
  match output_json_schema, output_schema with
  | none, none =>
    let os := some [("output", "string")]
    let js := Json.obj
      [ ("type", Json.str "object")
      , ("properties", Json.obj [("output", Json.obj [("type", Json.str "string")])])
      , ("required", Json.arr [Json.str "output"])
      ]
    (setAdditionalProps js).map (fun j => (j, os))
  | none, some os =>
    (setAdditionalProps (convert_output_schema_to_json_schema os)).map
      (fun j => (j, some os))
  | some s, osOpt =>
    if ¬ stripIsEmpty s then
      match json_loads s with
      | some j => (setAdditionalProps j).map (fun j2 => (j2, osOpt))
      | none => .error .jsonDecodeError
    else
      .error .typeError

/-- The `next(message for message in messages if message["role"] == "system")`
lookup followed by the `+=` on its `content`: updates the first system
message in place, `StopIteration` when none exists. -/
def appendToFirstSystem (messages : List ChatMessage) (suffix : String) :
    Except PyErr (List ChatMessage) :=
  match messages with
  | [] => .error .stopIteration
  | m :: rest =>
    if m.role = "system" then
      .ok (ChatMessage.mk m.role (m.content ++ suffix) :: rest)
    else
      (appendToFirstSystem rest suffix).map (fun r => m :: r)

/-- Truthiness of the `output_json_schema` dict at the `elif
output_json_schema:` test (by then it is always a dict). -/
def jsonObjTruthy : Json → Bool
  | .obj ms => !ms.isEmpty
  | _ => false

/-- The `schema_for_prompt` selection in the json-object fallback branch:
`json.dumps(output_schema)` when `output_schema` is truthy, else
`json.dumps(output_json_schema)` when that dict is truthy, else the literal
default. -/
def schemaForPrompt (output_schema : Option (List (String × String)))
    (output_json_schema : Json) : String :=
  if pyListTruthy output_schema then
    jsonDumps (simpleSchemaJson (output_schema.getD []))
  else if jsonObjTruthy output_json_schema then
    jsonDumps output_json_schema
  else
    jsonDumps (Json.obj [("output", Json.str "string")])

/-- The instruction text appended to the system message in the json-object
fallback branch, up to the schema itself. -/
def jsonOnlyPromptPrefix : String :=
  "\nYou must respond with valid JSON only. No other text before or after the JSON Object. The JSON Object must adhere to this schema: "

/-- The JSON-schema processing block of `generate_text` (from the
`supports_json` guard through the `response_format`/system-message
branches) as a pure function: given the litellm capability answers for the
model, whether the model's constraints support JSON output, and the
`output_schema`/`output_json_schema` arguments, it returns the
`response_format` value placed into the request kwargs (if any) together
with the possibly updated messages. -/
def processJsonSchema (caps : LitellmCaps) (supports_json : Bool)
    (output_schema : Option (List (String × String)))
    (output_json_schema : Option String)
    (messages : List ChatMessage) :
    Except PyErr (Option Json × List ChatMessage) :=
  if supports_json then
    match deriveSchema output_schema output_json_schema with
    | .error e => .error e
    | .ok (js, osBound) =>
      if caps.supports_response_format then
        if caps.supports_response_schema then
          let js2 :=
            if !(objKeys js).contains "name" && !(objKeys js).contains "schema" then
              Json.obj [("schema", js), ("strict", Json.bool true), ("name", Json.str "output")]
            else js
          .ok (some (Json.obj [("type", Json.str "json_schema"), ("json_schema", js2)]),
               messages)
        else
          match appendToFirstSystem messages
              (jsonOnlyPromptPrefix ++ schemaForPrompt osBound js) with
          | .error e => .error e
          | .ok msgs2 =>
            .ok (some (Json.obj [("type", Json.str "json_object")]), msgs2)
      else .ok (none, messages)
  else .ok (none, messages)

end PySpur

namespace PySpur

/-- C1 (amended): every enum member id except `gemini/gemini-2.0-flash-exp`
has a registry entry whose `id` equals the queried id and whose `provider`
value is the prefix of the id before the `/`. -/
theorem get_model_info_sound (id : String) (hmem : id ∈ llmModelValues)
    (hne : id ≠ "gemini/gemini-2.0-flash-exp") :
    ∃ m, get_model_info id = some m ∧ m.id = id ∧
      providerValue m.provider = prefixBeforeSlash id := by
  fin_cases hmem <;>
    first
      | exact absurd rfl hne
      | exact ⟨_, rfl, rfl, by decide⟩

/-- C1 (witness): the amended statement instantiated at `openai/gpt-4o`. -/
theorem get_model_info_sound_witness :
    ("openai/gpt-4o" ∈ llmModelValues ∧
      "openai/gpt-4o" ≠ "gemini/gemini-2.0-flash-exp") ∧
    ∃ m, get_model_info "openai/gpt-4o" = some m ∧ m.id = "openai/gpt-4o" ∧
      providerValue m.provider = prefixBeforeSlash "openai/gpt-4o" :=
  ⟨⟨by decide, by decide⟩,
    get_model_info_sound "openai/gpt-4o" (by decide) (by decide)⟩

/-- C1 (counterexample): `gemini/gemini-2.0-flash-exp` is the value of an
`LLMModels` enum member, yet `get_model_info` returns `None` for it — the
registry dictionary has no entry for this id. -/
theorem get_model_info_gemini_flash_exp_missing :
    "gemini/gemini-2.0-flash-exp" ∈ llmModelValues ∧
    get_model_info "gemini/gemini-2.0-flash-exp" = none :=
  ⟨by decide, rfl⟩

/-- C4: `completion_with_backoff` takes the Azure configuration path exactly
when the model name starts with `azure/`, or the `AZURE_OPENAI_API_KEY`
environment variable is set (to a non-empty value) and the model name does
not start with `ollama/`; otherwise it forwards to `acompletion` with the
kwargs unchanged. -/
theorem completion_with_backoff_provider_selection {κ : Type}
    (getModel : κ → Option String) (azure_api_key : Option String) (kwargs : κ) :
    (completionDispatch getModel azure_api_key kwargs = CompletionCall.azureConfigPath ↔
      (((getModel kwargs).getD "").startsWith "azure/" = true ∨
        (envTruthy azure_api_key = true ∧
          ((getModel kwargs).getD "").startsWith "ollama/" = false))) ∧
    (completionDispatch getModel azure_api_key kwargs = CompletionCall.acompletionCall kwargs ↔
      ¬ (((getModel kwargs).getD "").startsWith "azure/" = true ∨
        (envTruthy azure_api_key = true ∧
          ((getModel kwargs).getD "").startsWith "ollama/" = false))) := by
  unfold completionDispatch
  rcases hA : ((getModel kwargs).getD "").startsWith "azure/" <;>
    rcases hK : envTruthy azure_api_key <;>
      rcases hO : ((getModel kwargs).getD "").startsWith "ollama/" <;>
        simp [hA, hK, hO]

/-- C2 (code bug): with the retry predicate as actually evaluated by
tenacity — on the `RetryCallState`, never on the exception — an
`AuthenticationError` raised by every attempt is retried to the full 3
attempts and then surfaces as tenacity's `RetryError`, not re-raised after
a single attempt; a transient failure on the first attempt is retried and
the second attempt's value is returned. -/
theorem completion_retry_does_not_surface_auth_error :
    retryCall completionRetryPred 3
        (fun _ => (Except.error PyExc.authenticationError : Except PyExc String)) =
      RetryOutcome.retryError PyExc.authenticationError 3 ∧
    retryCall completionRetryPred 3
        (fun k => if k = 1 then Except.error (PyExc.otherExc "APIConnectionError")
                  else Except.ok "ok") =
      RetryOutcome.success "ok" 2 :=
  ⟨rfl, rfl⟩

/-- C3 (counterexample): the wait before the second attempt is
`uniform(0, high)`; with the random draw at the bottom of the window the
realized wait is 0 seconds, not at least 30. -/
theorem backoff_wait_can_fall_below_min :
    backoffWait 1 0 = 0 ∧ ¬ (30 ≤ backoffWait 1 0) := by
  constructor <;>
    norm_num [backoffWait, wait_random_exponential_draw, wait_exponential_high]

/-- Attempt-count invariant of the retry loop: starting at an attempt
number within the stop bound, the loop never reports more attempts than
`stop_after_attempt` allows. -/
theorem retryLoopGo_attemptsMade_le {α : Type} (pred : RetryCallState → Bool)
    (s : Nat) (f : Nat → Except PyExc α) :
    ∀ fuel k, k ≤ s → (retryLoopGo pred s f fuel k).attemptsMade ≤ s := by
  intro fuel
  induction fuel with
  | zero =>
    intro k hk
    unfold retryLoopGo
    cases hf : f k with
    | ok v => simpa [RetryOutcome.attemptsMade] using hk
    | error e =>
      by_cases hp : (!pred (RetryCallState.mk k (some e))) = true
      · simp [hp, RetryOutcome.attemptsMade, hk]
      · by_cases hs : s ≤ k
        all_goals simp [hp, hs, RetryOutcome.attemptsMade, hk]
  | succ n ih =>
    intro k hk
    unfold retryLoopGo
    cases hf : f k with
    | ok v => simpa [RetryOutcome.attemptsMade] using hk
    | error e =>
      by_cases hp : (!pred (RetryCallState.mk k (some e))) = true
      · simp [hp, RetryOutcome.attemptsMade, hk]
      · by_cases hs : s ≤ k
        · simp [hp, hs, RetryOutcome.attemptsMade, hk]
        · simpa [hp, hs] using ih (k + 1) (by omega)

/-- C3 (amended): at most 3 attempts are ever made per call, and every wait
between consecutive attempts is a draw `u * high` from the window
`[0, high]`, where the window top `high` lies in `[30, 120]`; the wait
itself is between 0 and 120 seconds (it can fall below 30). -/
theorem retry_attempts_and_wait_bounds {α : Type} (pred : RetryCallState → Bool)
    (f : Nat → Except PyExc α) :
    (retryCall pred 3 f).attemptsMade ≤ 3 ∧
    ∀ (k : Nat) (u : ℚ), 0 ≤ u → u ≤ 1 →
      0 ≤ backoffWait k u ∧ backoffWait k u ≤ 120 ∧
      30 ≤ wait_exponential_high 1 30 120 2 k ∧
      wait_exponential_high 1 30 120 2 k ≤ 120 := by
  constructor
  · exact retryLoopGo_attemptsMade_le pred 3 f 3 1 (by omega)
  · intro k u hu0 hu1
    have hlo : (30 : ℚ) ≤ wait_exponential_high 1 30 120 2 k := by
      unfold wait_exponential_high
      have : max (0 : ℚ) 30 = 30 := by norm_num
      rw [this]
      exact le_max_left _ _
    have hhi : wait_exponential_high 1 30 120 2 k ≤ 120 := by
      unfold wait_exponential_high
      apply max_le
      · norm_num
      · exact min_le_right _ _
    refine ⟨?_, ?_, hlo, hhi⟩
    · exact mul_nonneg hu0 (le_trans (by norm_num) hlo)
    · calc backoffWait k u = u * wait_exponential_high 1 30 120 2 k := rfl
        _ ≤ wait_exponential_high 1 30 120 2 k :=
          mul_le_of_le_one_left (le_trans (by norm_num) hlo) hu1
        _ ≤ 120 := hhi

/-- C3 (witness): the amended statement instantiated at attempt 2 with a
mid-window draw, and a concrete retried call. -/
theorem retry_attempts_and_wait_bounds_witness :
    (retryCall defaultRetryPred 3
        (fun _ => (Except.error (PyExc.otherExc "APIConnectionError") : Except PyExc String))).attemptsMade ≤ 3 ∧
    (0 ≤ backoffWait 2 (1 / 2) ∧ backoffWait 2 (1 / 2) ≤ 120 ∧
      30 ≤ wait_exponential_high 1 30 120 2 2 ∧
      wait_exponential_high 1 30 120 2 2 ≤ 120) :=
  ⟨(retry_attempts_and_wait_bounds defaultRetryPred
      (fun _ => (Except.error (PyExc.otherExc "APIConnectionError") : Except PyExc String))).1,
    (retry_attempts_and_wait_bounds defaultRetryPred
      (fun _ => (Except.error (PyExc.otherExc "APIConnectionError") : Except PyExc String))).2
      2 (1 / 2) (by norm_num) (by norm_num)⟩

/-- C7 (code bug, evaluation at the failing input): a document whose text is
the single two-character paragraph `Hi` is converted to XML with one
`<paragraph>` element per character, not one per paragraph. -/
theorem convert_docx_to_xml_per_character :
    convert_docx_to_xml (DocxContent.mk [] "Hi") =
      "<?xml version='1.0' encoding='UTF-8'?>\n<document>\n<metadata>\n</metadata>\n<content>\n<paragraph>H</paragraph>\n<paragraph>i</paragraph>\n</content>\n</document>" :=
  rfl

/-- Length of the user/assistant pair expansion of few-shot examples. -/
theorem fewShotPairs_length (l : List FewShotExample) :
    (l.flatMap (fun e =>
      [ChatMessage.mk "user" e.input, ChatMessage.mk "assistant" e.output])).length =
      2 * l.length := by
  induction l with
  | nil => rfl
  | cons e l ih => simp [ih]; omega

/-- C8: `create_messages` returns the system message, the few-shot examples
as user/assistant pairs in order, the history entries in order, and the
user message last — a list of length
`1 + 2 * len(few_shot_examples) + len(history) + 1`. -/
theorem create_messages_shape (system_message user_message : String)
    (few_shot_examples : Option (List FewShotExample))
    (history : Option (List ChatMessage)) :
    create_messages system_message user_message few_shot_examples history =
      ChatMessage.mk "system" system_message ::
        ((few_shot_examples.getD []).flatMap (fun e =>
            [ChatMessage.mk "user" e.input, ChatMessage.mk "assistant" e.output]) ++
          (history.getD [] ++ [ChatMessage.mk "user" user_message])) ∧
    (create_messages system_message user_message few_shot_examples history).length =
      1 + 2 * (few_shot_examples.getD []).length + (history.getD []).length + 1 := by
  have hshape : create_messages system_message user_message few_shot_examples history =
      ChatMessage.mk "system" system_message ::
        ((few_shot_examples.getD []).flatMap (fun e =>
            [ChatMessage.mk "user" e.input, ChatMessage.mk "assistant" e.output]) ++
          (history.getD [] ++ [ChatMessage.mk "user" user_message])) := by
    unfold create_messages
    cases few_shot_examples with
    | none =>
      cases history with
      | none => simp [pyListTruthy]
      | some h =>
        cases h with
        | nil => simp [pyListTruthy]
        | cons m h => simp [pyListTruthy]
    | some fs =>
      cases fs with
      | nil =>
        cases history with
        | none => simp [pyListTruthy]
        | some h =>
          cases h with
          | nil => simp [pyListTruthy]
          | cons m h => simp [pyListTruthy]
      | cons e fs =>
        cases history with
        | none => simp [pyListTruthy]
        | some h =>
          cases h with
          | nil => simp [pyListTruthy]
          | cons m h => simp [pyListTruthy]
  refine ⟨hshape, ?_⟩
  rw [hshape]
  simp only [List.length_cons, List.length_append, fewShotPairs_length,
    List.length_nil]
  omega

/-- C6: constructing a `ModelInfo` (with the `model` field left at its
default) succeeds exactly when the provided numeric values are within the
declared bounds — `max_tokens` in `[1, 65536]`, `temperature` and `top_p`
in `[0.0, 1.0]` — and when `temperature` and `top_p` are omitted they
default to 0.7 and 1.0. -/
theorem modelInfo_validation (mt : Int) (t tp : ℚ) :
    ((∃ mi, ModelInfo.construct none (some (some mt)) (some (some t)) (some (some tp)) =
        Except.ok mi) ↔
      (1 ≤ mt ∧ mt ≤ 65536 ∧ 0 ≤ t ∧ t ≤ 1 ∧ 0 ≤ tp ∧ tp ≤ 1)) ∧
    (1 ≤ mt → mt ≤ 65536 →
      ModelInfo.construct none (some (some mt)) none none =
        Except.ok (ModelInfo.mk "openai/gpt-4o" (some mt) (some (7 / 10)) (some 1))) := by
  have hmem : ¬ ¬ ("openai/gpt-4o" ∈ llmModelValues) := by decide
  have hdef : ModelInfo.construct none (some (some mt)) (some (some t)) (some (some tp)) =
      (if 1 ≤ mt ∧ mt ≤ 65536 then
        if 0 ≤ t ∧ t ≤ 1 then
          if 0 ≤ tp ∧ tp ≤ 1 then
            Except.ok (ModelInfo.mk "openai/gpt-4o" (some mt) (some t) (some tp))
          else Except.error ValidationError.topPOutOfRange
        else Except.error ValidationError.temperatureOutOfRange
      else Except.error ValidationError.maxTokensOutOfRange) := by
    simp only [ModelInfo.construct, Option.getD_none, Option.getD_some, if_neg hmem,
      intBoundOk, ratBoundOk, decide_eq_true_eq, ite_not]
  have hdef2 : ModelInfo.construct none (some (some mt)) none none =
      (if 1 ≤ mt ∧ mt ≤ 65536 then
        Except.ok (ModelInfo.mk "openai/gpt-4o" (some mt) (some (7 / 10)) (some 1))
      else Except.error ValidationError.maxTokensOutOfRange) := by
    simp only [ModelInfo.construct, Option.getD_none, Option.getD_some, if_neg hmem,
      intBoundOk, ratBoundOk, decide_eq_true_eq, ite_not]
    norm_num
  constructor
  · rw [hdef]
    split_ifs with h1 h2 h3
    · exact ⟨fun _ => ⟨h1.1, h1.2, h2.1, h2.2, h3.1, h3.2⟩, fun _ => ⟨_, rfl⟩⟩
    · exact ⟨fun ⟨_, hmi⟩ => absurd hmi (by simp),
        fun hb => absurd ⟨hb.2.2.2.2.1, hb.2.2.2.2.2⟩ h3⟩
    · exact ⟨fun ⟨_, hmi⟩ => absurd hmi (by simp),
        fun hb => absurd ⟨hb.2.2.1, hb.2.2.2.1⟩ h2⟩
    · exact ⟨fun ⟨_, hmi⟩ => absurd hmi (by simp),
        fun hb => absurd ⟨hb.1, hb.2.1⟩ h1⟩
  · intro h1 h2
    rw [hdef2, if_pos ⟨h1, h2⟩]

/-- C6 (witness): the validation statement at `max_tokens = 1000`,
`temperature = top_p = 0.5`, and the defaulting at the same `max_tokens`. -/
theorem modelInfo_validation_witness :
    (∃ mi, ModelInfo.construct none (some (some 1000))
        (some (some (1 / 2))) (some (some (1 / 2))) = Except.ok mi) ∧
    ModelInfo.construct none (some (some 1000)) none none =
      Except.ok (ModelInfo.mk "openai/gpt-4o" (some 1000) (some (7 / 10)) (some 1)) :=
  ⟨(modelInfo_validation 1000 (1 / 2) (1 / 2)).1.mpr (by norm_num),
    (modelInfo_validation 1000 (1 / 2) (1 / 2)).2 (by norm_num) (by norm_num)⟩

/-- Python dict assignment on an association list whose keys avoid the new
key appends the pair at the end. -/
theorem setKey_of_not_mem (ms : List (String × Json)) (k : String) (v : Json)
    (h : k ∉ ms.map Prod.fst) : setKey ms k v = ms ++ [(k, v)] := by
  induction ms with
  | nil => rfl
  | cons p ms ih =>
    obtain ⟨k2, v2⟩ := p
    simp only [List.map_cons, List.mem_cons, not_or] at h
    have hne : ¬ (k2 = k) := fun he => h.1 (Eq.symm he)
    simp only [setKey]
    rw [if_neg hne, ih h.2]
    simp

/-- Unfolding of the loop in `convert_output_schema_to_json_schema` over
an input whose keys are fresh for the accumulated `properties` and mutually
distinct: `properties` collects exactly the recognized entries in order and
`required` collects every key in order. -/
theorem convertLoop_foldl (l : List (String × String)) :
    ∀ (props : List (String × Json)) (req : List String),
      (∀ k ∈ l.map Prod.fst, k ∉ props.map Prod.fst) →
      (l.map Prod.fst).Nodup →
      l.foldl convertLoopStep (props, req) =
        (props ++ l.filterMap (fun e => (jsonTypeOf e.2).map
            (fun ty => (e.1, Json.obj [("type", Json.str ty)]))),
          req ++ l.map Prod.fst) := by
  induction l with
  | nil => simp
  | cons e l ih =>
    intro props req hdisj hnodup
    simp only [List.map_cons, List.nodup_cons] at hnodup
    simp only [List.foldl_cons]
    cases hty : jsonTypeOf e.2 with
    | none =>
      have hstep : convertLoopStep (props, req) e = (props, req ++ [e.1]) := by
        simp [convertLoopStep, hty]
      rw [hstep, ih props (req ++ [e.1])
        (fun k hk => hdisj k (by simp [hk])) hnodup.2]
      simp [List.filterMap_cons, hty]
    | some ty =>
      have hk : e.1 ∉ props.map Prod.fst := hdisj e.1 (by simp)
      have hstep : convertLoopStep (props, req) e =
          (props ++ [(e.1, Json.obj [("type", Json.str ty)])], req ++ [e.1]) := by
        simp [convertLoopStep, hty, setKey_of_not_mem props e.1 _ hk]
      rw [hstep, ih (props ++ [(e.1, Json.obj [("type", Json.str ty)])]) (req ++ [e.1])
        ?_ hnodup.2]
      · simp [List.filterMap_cons, hty]
      · intro k hkl
        simp only [List.map_append, List.map_cons, List.map_nil, List.mem_append,
          List.mem_singleton, not_or]
        refine ⟨hdisj k (by simp [hkl]), ?_⟩
        intro he
        subst he
        exact hnodup.1 hkl

/-- C10: for an input dict of field names to type names,
`convert_output_schema_to_json_schema` produces a schema whose `required`
lists every key in order, whose `additionalProperties` is false, and whose
`properties` contains exactly the keys with a recognized type name, mapped
to the corresponding JSON type — a key with an unrecognized type name is in
`required` but absent from `properties`. -/
theorem convert_output_schema_shape (output_schema : List (String × String))
    (hnodup : (output_schema.map Prod.fst).Nodup) :
    (convert_output_schema_to_json_schema output_schema).lookup "required" =
      some (Json.arr ((output_schema.map Prod.fst).map Json.str)) ∧
    (convert_output_schema_to_json_schema output_schema).lookup "additionalProperties" =
      some (Json.bool false) ∧
    (convert_output_schema_to_json_schema output_schema).lookup "properties" =
      some (Json.obj (output_schema.filterMap (fun e => (jsonTypeOf e.2).map
        (fun ty => (e.1, Json.obj [("type", Json.str ty)]))))) := by
  have hfold := convertLoop_foldl output_schema [] [] (by simp) hnodup
  unfold convert_output_schema_to_json_schema
  rw [hfold]
  exact ⟨rfl, rfl, rfl⟩

/-- C10 (witness): the schema `a: str, b: foo` — `b` has an unrecognized
type, so it appears in `required` but not in `properties`. -/
theorem convert_output_schema_shape_witness :
    (convert_output_schema_to_json_schema [("a", "str"), ("b", "foo")]).lookup "required" =
      some (Json.arr [Json.str "a", Json.str "b"]) ∧
    (convert_output_schema_to_json_schema [("a", "str"), ("b", "foo")]).lookup
        "additionalProperties" = some (Json.bool false) ∧
    (convert_output_schema_to_json_schema [("a", "str"), ("b", "foo")]).lookup "properties" =
      some (Json.obj [("a", Json.obj [("type", Json.str "string")])]) := by
  obtain ⟨h1, h2, h3⟩ := convert_output_schema_shape [("a", "str"), ("b", "foo")] (by decide)
  refine ⟨?_, h2, ?_⟩
  · simpa using h1
  · simpa [jsonTypeOf] using h3

/-- The two `str.replace` passes of the sanitization act as one
per-character substitution: escape `"` and newline, everything else
unchanged. -/
theorem sanitize_eq_flatMap (l : List Char) :
    replaceChar (replaceChar l '"' ['\\', '"']) '\n' ['\\', 'n'] =
      l.flatMap (fun c =>
        if c = '"' then ['\\', '"'] else if c = '\n' then ['\\', 'n'] else [c]) := by
  induction l with
  | nil => rfl
  | cons c l ih =>
    by_cases h1 : c = '"'
    · subst h1
      simp only [replaceChar, List.flatMap_cons] at ih ⊢
      simp [ih]
    · by_cases h2 : c = '\n'
      · subst h2
        simp only [replaceChar, List.flatMap_cons] at ih ⊢
        simp [ih]
      · simp only [replaceChar, List.flatMap_cons] at ih ⊢
        simp [h1, h2, ih]

/-- Decoding inverts the sanitization: on a string free of backslashes and
of control characters other than newline, the JSON string-literal parser
recovers the original characters from their sanitized form. -/
theorem parseStrLit_sanitized (l : List Char) (rest : List Char)
    (h : ∀ c ∈ l, c ≠ '\\' ∧ (32 ≤ c.toNat ∨ c = '\n')) :
    parseStrLit
        (l.flatMap (fun c =>
            if c = '"' then ['\\', '"'] else if c = '\n' then ['\\', 'n'] else [c]) ++
          '"' :: rest) = some (l, rest) := by
  induction l with
  | nil =>
    show parseStrLit ('"' :: rest) = some ([], rest)
    unfold parseStrLit
    simp
  | cons c l ih =>
    obtain ⟨hc1, hc2⟩ := h c (List.mem_cons_self c l)
    have hrest : ∀ c2 ∈ l, c2 ≠ '\\' ∧ (32 ≤ c2.toNat ∨ c2 = '\n') :=
      fun c2 hc => h c2 (List.mem_cons_of_mem c hc)
    by_cases h1 : c = '"'
    · subst h1
      simp only [List.flatMap_cons, if_pos rfl, List.cons_append, List.append_assoc]
      rw [parseStrLit.eq_def]
      simp [escChar, ih hrest]
    · by_cases h2 : c = '\n'
      · subst h2
        have hfm : (('\n' : Char) :: l).flatMap (fun c =>
            if c = '"' then ['\\', '"'] else if c = '\n' then ['\\', 'n'] else [c]) =
            '\\' :: 'n' :: l.flatMap (fun c =>
            if c = '"' then ['\\', '"'] else if c = '\n' then ['\\', 'n'] else [c]) := by
          simp
        rw [hfm, List.cons_append, List.cons_append, parseStrLit.eq_def]
        simp [escChar, ih hrest]
      · have h32 : 32 ≤ c.toNat := hc2.resolve_right h2
        simp only [List.flatMap_cons, if_neg h1, if_neg h2, List.cons_append,
          List.append_assoc]
        rw [parseStrLit.eq_def]
        simp [h1, hc1, Nat.not_lt.mpr h32, ih hrest]

/-- Parsing the literal key `output` out of the wrapped object. -/
theorem parseStrLit_output (rest : List Char) :
    parseStrLit ('o' :: 'u' :: 't' :: 'p' :: 'u' :: 't' :: '"' :: rest) =
      some (['o', 'u', 't', 'p', 'u', 't'], rest) := by
  simp [parseStrLit.eq_def]

/-- Parsing the sanitized value string (with the leading space after the
colon) inside the wrapped object. -/
theorem parseValue_sanitized_str (n : Nat) (l : List Char)
    (h : ∀ c ∈ l, c ≠ '\\' ∧ (32 ≤ c.toNat ∨ c = '\n')) :
    parseValue (n + 1)
        (' ' :: '"' ::
          (l.flatMap (fun c =>
            if c = '"' then ['\\', '"'] else if c = '\n' then ['\\', 'n'] else [c]) ++
            '"' :: ['\x7d'])) =
      some (Json.str (String.mk l), ['\x7d']) := by
  rw [parseValue.eq_def]
  simp [skipWs, isJsonWs, lbrace, parseStrLit_sanitized l ['\x7d'] h]

/-- Parsing the single member `"output": "<sanitized>"` of the wrapped
object, up to and including the closing brace. -/
theorem parseMembers_output (n : Nat) (l : List Char)
    (h : ∀ c ∈ l, c ≠ '\\' ∧ (32 ≤ c.toNat ∨ c = '\n')) :
    parseMembers (n + 2)
        ('"' :: 'o' :: 'u' :: 't' :: 'p' :: 'u' :: 't' :: '"' :: ':' :: ' ' :: '"' ::
          (l.flatMap (fun c =>
            if c = '"' then ['\\', '"'] else if c = '\n' then ['\\', 'n'] else [c]) ++
            '"' :: ['\x7d'])) =
      some ([("output", Json.str (String.mk l))], []) := by
  have hkey : String.mk ['o', 'u', 't', 'p', 'u', 't'] = "output" := rfl
  rw [show n + 2 = (n + 1) + 1 from rfl, parseMembers.eq_def]
  simp [skipWs, isJsonWs, parseStrLit_output, parseValue_sanitized_str n l h, rbrace, hkey]

/-- Parsing the whole wrapped object. -/
theorem parseValue_output_obj (n : Nat) (l : List Char)
    (h : ∀ c ∈ l, c ≠ '\\' ∧ (32 ≤ c.toNat ∨ c = '\n')) :
    parseValue (n + 3)
        ('\x7b' :: '"' :: 'o' :: 'u' :: 't' :: 'p' :: 'u' :: 't' :: '"' :: ':' :: ' ' :: '"' ::
          (l.flatMap (fun c =>
            if c = '"' then ['\\', '"'] else if c = '\n' then ['\\', 'n'] else [c]) ++
            '"' :: ['\x7d'])) =
      some (Json.obj [("output", Json.str (String.mk l))], []) := by
  rw [show n + 3 = (n + 2) + 1 from rfl, parseValue.eq_def]
  simp [skipWs, isJsonWs, lbrace, rbrace, parseMembers_output n l h]

/-- C9 (counterexample): the sanitization does not escape backslashes, so
for the raw response consisting of one backslash the string `generate_text`
returns is `\x7b"output": "\\"\x7d`, which is not parseable JSON — the
backslash escapes the closing quote of the value string. -/
theorem wrapOutput_backslash_not_json :
    json_loads (wrapOutput "\\") = none :=
  rfl

/-- C9 (amended): for raw responses containing no backslash and no control
character other than newline, the wrapped string `generate_text` returns is
parseable JSON whose `output` field decodes to the original raw response;
a raw response containing a backslash can make the result unparseable or
decode to a different string. -/
theorem wrapOutput_roundtrip (s : String)
    (h : ∀ c ∈ s.data, c ≠ '\\' ∧ (32 ≤ c.toNat ∨ c = '\n')) :
    json_loads (wrapOutput s) = some (Json.obj [("output", Json.str s)]) := by
  obtain ⟨l⟩ := s
  have hl : ∀ c ∈ l, c ≠ '\\' ∧ (32 ≤ c.toNat ∨ c = '\n') := h
  have hsan : (sanitizeResponse (String.mk l)).data =
      l.flatMap (fun c =>
        if c = '"' then ['\\', '"'] else if c = '\n' then ['\\', 'n'] else [c]) := by
    show replaceChar (replaceChar (String.mk l).data '"' ['\\', '"']) '\n' ['\\', 'n'] = _
    exact sanitize_eq_flatMap l
  have hdata : (wrapOutput (String.mk l)).data =
      '\x7b' :: '"' :: 'o' :: 'u' :: 't' :: 'p' :: 'u' :: 't' :: '"' :: ':' :: ' ' :: '"' ::
        (l.flatMap (fun c =>
          if c = '"' then ['\\', '"'] else if c = '\n' then ['\\', 'n'] else [c]) ++
          '"' :: ['\x7d']) := by
    show ("\x7b\"output\": \"" ++ sanitizeResponse (String.mk l) ++ "\"\x7d").data = _
    rw [String.data_append, String.data_append, hsan, List.append_assoc]
    rfl
  unfold json_loads
  rw [hdata]
  have hlen : ('\x7b' :: '"' :: 'o' :: 'u' :: 't' :: 'p' :: 'u' :: 't' :: '"' :: ':' :: ' ' :: '"' ::
      (l.flatMap (fun c =>
        if c = '"' then ['\\', '"'] else if c = '\n' then ['\\', 'n'] else [c]) ++
        '"' :: ['\x7d'])).length + 1 =
      ((l.flatMap (fun c =>
        if c = '"' then ['\\', '"'] else if c = '\n' then ['\\', 'n'] else [c])).length + 12)
        + 3 := by
    simp [List.length_append]
  rw [hlen, parseValue_output_obj _ l hl]
  simp [skipWs]

/-- C9 (witness): the amended statement at the concrete response
`hi "x"\nok`, whose quotes and newline are escaped and recovered. -/
theorem wrapOutput_roundtrip_witness :
    json_loads (wrapOutput "hi \"x\"\nok") =
      some (Json.obj [("output", Json.str "hi \"x\"\nok")]) :=
  wrapOutput_roundtrip "hi \"x\"\nok" (by decide)

/-- Top-level keys of the schema dict derived by `generate_text` when no
raw `output_json_schema` string is supplied: always exactly `type`,
`properties`, `required`, `additionalProperties` — in particular neither
`name` nor `schema`. -/
theorem deriveSchema_none_keys (os : Option (List (String × String))) (js : Json)
    (osB : Option (List (String × String)))
    (hd : deriveSchema os none = Except.ok (js, osB)) :
    objKeys js = ["type", "properties", "required", "additionalProperties"] := by
  cases os with
  | none =>
    have hcomp : deriveSchema none none =
        Except.ok (Json.obj
          [ ("type", Json.str "object")
          , ("properties", Json.obj [("output", Json.obj [("type", Json.str "string")])])
          , ("required", Json.arr [Json.str "output"])
          , ("additionalProperties", Json.bool false) ], some [("output", "string")]) := rfl
    rw [hcomp] at hd
    simp only [Except.ok.injEq, Prod.mk.injEq] at hd
    rw [← hd.1]
    rfl
  | some l =>
    have hcomp : deriveSchema (some l) none =
        Except.ok (Json.obj
          [ ("type", Json.str "object")
          , ("properties", Json.obj (l.foldl convertLoopStep ([], [])).1)
          , ("required", Json.arr ((l.foldl convertLoopStep ([], [])).2.map Json.str))
          , ("additionalProperties", Json.bool false) ], some l) := by
      show (setAdditionalProps (convert_output_schema_to_json_schema l)).map
          (fun j => (j, some l)) = _
      simp only [convert_output_schema_to_json_schema, setAdditionalProps, setKey]
      rfl
    rw [hcomp] at hd
    simp only [Except.ok.injEq, Prod.mk.injEq] at hd
    rw [← hd.1]
    rfl

/-- The system-message lookup-and-append: with the first system message
after a prefix of non-system messages, `appendToFirstSystem` appends the
suffix to that message's content and leaves everything else unchanged. -/
theorem appendToFirstSystem_finds (pre post : List ChatMessage) (sysc suffix : String)
    (hpre : ∀ m ∈ pre, m.role ≠ "system") :
    appendToFirstSystem (pre ++ ChatMessage.mk "system" sysc :: post) suffix =
      Except.ok (pre ++ ChatMessage.mk "system" (sysc ++ suffix) :: post) := by
  induction pre with
  | nil => simp [appendToFirstSystem]
  | cons m pre ih =>
    have hm : m.role ≠ "system" := hpre m (List.mem_cons_self m pre)
    simp only [List.cons_append, appendToFirstSystem, if_neg hm, List.append_eq]
    rw [ih (fun m2 hm2 => hpre m2 (List.mem_cons_of_mem m hm2))]
    rfl

/-- C5: for a model whose constraints have `supports_JSON_output` true (and
the schema given as the default or via `output_schema`, `output_json_schema`
not supplied): when the provider supports a response schema,
`response_format` is the `json_schema` dict whose `json_schema` entry is
the derived schema wrapped with `strict=True` and the name `output`, and
the messages are untouched; when the provider supports `response_format`
but not a response schema, `response_format` is the `json_object` dict and
the schema is instead appended as text to the system message's content. -/
theorem generate_text_json_schema_branches
    (os : Option (List (String × String)))
    (pre post : List ChatMessage) (sysc : String)
    (hpre : ∀ m ∈ pre, m.role ≠ "system")
    (js : Json) (osB : Option (List (String × String)))
    (hd : deriveSchema os none = Except.ok (js, osB)) :
    processJsonSchema (LitellmCaps.mk true true) true os none
        (pre ++ ChatMessage.mk "system" sysc :: post) =
      Except.ok (some (Json.obj
          [ ("type", Json.str "json_schema")
          , ("json_schema", Json.obj
              [("schema", js), ("strict", Json.bool true), ("name", Json.str "output")]) ]),
        pre ++ ChatMessage.mk "system" sysc :: post) ∧
    processJsonSchema (LitellmCaps.mk true false) true os none
        (pre ++ ChatMessage.mk "system" sysc :: post) =
      Except.ok (some (Json.obj [("type", Json.str "json_object")]),
        pre ++ ChatMessage.mk "system"
          (sysc ++ (jsonOnlyPromptPrefix ++ schemaForPrompt osB js)) :: post) := by
  have hkeys := deriveSchema_none_keys os js osB hd
  have hname : ((objKeys js).contains "name") = false := by rw [hkeys]; rfl
  have hschema : ((objKeys js).contains "schema") = false := by rw [hkeys]; rfl
  constructor
  · simp [processJsonSchema, hd]
    intro hcontra
    have h1 : "name" ∉ objKeys js := by rw [hkeys]; decide
    have h2 : "schema" ∉ objKeys js := by rw [hkeys]; decide
    exact absurd (hcontra h1) h2
  · simp [processJsonSchema, hd,
      appendToFirstSystem_finds pre post sysc (jsonOnlyPromptPrefix ++ schemaForPrompt osB js) hpre]

/-- C5 (witness): both branches at the default schema (no schema arguments)
with a lone system message. -/
theorem generate_text_json_schema_branches_witness :
    processJsonSchema (LitellmCaps.mk true true) true none none
        [ChatMessage.mk "system" "sys"] =
      Except.ok (some (Json.obj
          [ ("type", Json.str "json_schema")
          , ("json_schema", Json.obj
              [ ("schema", Json.obj
                  [ ("type", Json.str "object")
                  , ("properties", Json.obj [("output", Json.obj [("type", Json.str "string")])])
                  , ("required", Json.arr [Json.str "output"])
                  , ("additionalProperties", Json.bool false) ])
              , ("strict", Json.bool true), ("name", Json.str "output") ]) ]),
        [ChatMessage.mk "system" "sys"]) ∧
    processJsonSchema (LitellmCaps.mk true false) true none none
        [ChatMessage.mk "system" "sys"] =
      Except.ok (some (Json.obj [("type", Json.str "json_object")]),
        [ChatMessage.mk "system"
          ("sys" ++ (jsonOnlyPromptPrefix ++ schemaForPrompt (some [("output", "string")])
            (Json.obj
              [ ("type", Json.str "object")
              , ("properties", Json.obj [("output", Json.obj [("type", Json.str "string")])])
              , ("required", Json.arr [Json.str "output"])
              , ("additionalProperties", Json.bool false) ])))]) :=
  generate_text_json_schema_branches none [] [] "sys" (by simp)
    (Json.obj
      [ ("type", Json.str "object")
      , ("properties", Json.obj [("output", Json.obj [("type", Json.str "string")])])
      , ("required", Json.arr [Json.str "output"])
      , ("additionalProperties", Json.bool false) ])
    (some [("output", "string")]) rfl

end PySpur
